import Mathlib

/-!
Verification of the request-authorization subsystem of the coffee-shop
service (`backend/src/auth/auth.py`), shallowly embedded in Lean 4.

The embedding follows the Python source line by line:

* `get_token_auth_header` reads the request authorization header, splits it
  on the space character, and returns the token part or raises a 401
  `AuthError`.
* `verify_decode_jwt` fetches the JWKS document, reads the unverified token
  header kid, selects an RSA key by scanning the keys array, and dispatches
  on the outcome of the external `jwt.decode` call.
* `check_permissions` checks for the permissions claim and membership of the
  required permission.
* `requires_auth` composes the three around a protected handler.

Python dictionary lookups that may fail are modelled with `Option` fields;
exceptions are modelled with an `Except` result whose error type `PyError`
distinguishes the typed `AuthError` from untyped Python crashes
(`KeyError`, `UnboundLocalError`) that the source can also raise.
External behaviour (the JWKS fetch, token header parsing, `jwt.decode`)
is passed in as explicit data, and the guard additionally counts how many
network fetches a run performs.
-/

/-- The `AuthError` exception of `auth.py`: an error dict (code and
description) together with an HTTP status code. -/
structure AuthError where
  code : Nat
  description : String
  status_code : Nat
deriving DecidableEq, Repr

/-- Errors a call into the auth module can raise: the typed `AuthError`,
or an untyped Python runtime error (`KeyError` on a missing dictionary
key, `UnboundLocalError` on a read of an unassigned local variable). -/
inductive PyError where
  | authError (e : AuthError)
  | keyError (missingKey : String)
  | unboundLocalError (name : String)
deriving DecidableEq, Repr

/-- The 401 error dict `{code: 401, description: "Unauthorised."}` raised on
every extraction failure and on a missing kid. -/
def unauthorised401 : PyError :=
  .authError ⟨401, "Unauthorised.", 401⟩

/-- Lowercasing of one character as Python `str.lower` does on ASCII (the
source only compares the result against the ASCII literal "bearer"). -/
def pyLowerChar (c : Char) : Char :=
  if 'A' ≤ c ∧ c ≤ 'Z' then Char.ofNat (c.toNat + 32) else c

/-- Python `str.lower`, restricted to ASCII case mapping. -/
def pyLower (s : String) : String := String.mk (s.data.map pyLowerChar)

/-- Helper for `pySplitSpace`: walks the remaining characters, collecting
the current chunk (in reverse) and emitting it at each space. -/
def pySplitSpaceAux : List Char → List Char → List String
  | [], acc => [String.mk acc.reverse]
  | c :: rest, acc =>
    if c = ' ' then String.mk acc.reverse :: pySplitSpaceAux rest []
    else pySplitSpaceAux rest (c :: acc)

/-- Python `s.split(" ")`: splits at every occurrence of the space
character, preserving empty chunks; the empty string yields `[""]`. -/
def pySplitSpace (s : String) : List String := pySplitSpaceAux s.data []

/-- `get_token_auth_header`, embedded over the request authorization header
(`none` models a request whose headers carry no Authorization key).
Mirrors auth.py lines 30-58: missing header check, `split(" ")`,
two-part check, case-insensitive scheme check, return of the second part. -/
def get_token_auth_header (authorizationHeader : Option String) :
    Except PyError String :=
  match authorizationHeader with
  | none => .error unauthorised401
  | some auth_header =>
    let auth_list := pySplitSpace auth_header
    if auth_list.length ≠ 2 then
      .error unauthorised401
    else if pyLower (auth_list.headD "") ≠ "bearer" then
      .error unauthorised401
    else
      .ok (auth_list.getD 1 "")

/-- One entry of the fetched JWKS keys array. Each field is a Python
dictionary entry that may be absent. -/
structure JWKSKey where
  kid : Option String
  kty : Option String
  use : Option String
  n : Option String
  e : Option String
deriving DecidableEq, Repr

/-- The `rsa_key` dictionary built by the selection loop once populated:
all five fields present. -/
structure RSAKey where
  kty : String
  kid : String
  use : String
  n : String
  e : String
deriving DecidableEq, Repr

/-- One iteration of the selection loop of `verify_decode_jwt` (auth.py
lines 90-98): compare `key["kid"]` against the token kid and, on a match,
overwrite `rsa_key` with the dict built from the entry. Dictionary
accesses follow the evaluation order of the source: `key["kid"]` in the
comparison, then `key["kty"]`, `key["use"]`, `key["n"]`, `key["e"]` in
the dict literal; a missing entry raises `KeyError` for that field. -/
def selectStep (key : JWKSKey) (tokenKid : String)
    (rsa_key : Option RSAKey) : Except PyError (Option RSAKey) :=
  match key.kid with
  | none => .error (.keyError "kid")
  | some keyKid =>
    if keyKid = tokenKid then
      match key.kty with
      | none => .error (.keyError "kty")
      | some kty =>
        match key.use with
        | none => .error (.keyError "use")
        | some use =>
          match key.n with
          | none => .error (.keyError "n")
          | some n =>
            match key.e with
            | none => .error (.keyError "e")
            | some e => .ok (some ⟨kty, keyKid, use, n, e⟩)
    else
      .ok rsa_key

/-- The full selection loop: `rsa_key` starts as the empty dict (`none`)
and each entry is processed in array order by `selectStep`; there is no
break, so a later match overwrites an earlier one. -/
def selectKey (keys : List JWKSKey) (tokenKid : String)
    (rsa_key : Option RSAKey) : Except PyError (Option RSAKey) :=
  match keys with
  | [] => .ok rsa_key
  | key :: rest =>
    match selectStep key tokenKid rsa_key with
    | .error err => .error err
    | .ok next => selectKey rest tokenKid next

/-- Possible outcomes of the external `jose.jwt.decode` call, one per
except-clause of the source: success, `ExpiredSignatureError`,
`JWTClaimsError`, `JWTError`, or any other exception. -/
inductive DecodeOutcome (Payload : Type) where
  | ok (payload : Payload)
  | expiredSignature
  | claimsError
  | jwtError
  | otherError
deriving DecidableEq, Repr

/-- The try/except block of `verify_decode_jwt` (auth.py lines 100-133):
maps each decode outcome to the value or `AuthError` the source produces. -/
def decodeDispatch {Payload : Type} (outcome : DecodeOutcome Payload) :
    Except PyError Payload :=
  match outcome with
  | .ok payload => .ok payload
  | .expiredSignature =>
    .error (.authError ⟨401, "Unauthorised. The token expired.", 401⟩)
  | .claimsError => .error (.authError ⟨401, "", 401⟩)
  | .jwtError => .error (.authError ⟨401, "", 401⟩)
  | .otherError => .error (.authError ⟨401, "", 401⟩)

/-- `verify_decode_jwt` (auth.py lines 75-135), after the JWKS fetch.
Inputs model the external world: `jwksKeys` is the keys array of the
fetched document, `tokenKid` the kid field of the unverified token header
(absent when the header carries none), and `decode` the behaviour of
`jwt.decode` on this token as a function of the supplied RSA key.
When no entry populated `rsa_key`, the `if rsa_key:` guard skips the
decode block and control reaches `return payload` with the local
`payload` never assigned, which raises `UnboundLocalError`. -/
def verify_decode_jwt {Payload : Type} (jwksKeys : List JWKSKey)
    (tokenKid : Option String) (decode : RSAKey → DecodeOutcome Payload) :
    Except PyError Payload :=
  match tokenKid with
  | none => .error unauthorised401
  | some kid =>
    match selectKey jwksKeys kid none with
    | .error err => .error err
    | .ok none => .error (.unboundLocalError "payload")
    | .ok (some rsa_key) => decodeDispatch (decode rsa_key)

/-- The decoded JWT payload as `check_permissions` sees it: a dictionary
whose permissions entry, when present, is a list of permission strings. -/
structure Payload where
  permissions : Option (List String)
deriving DecidableEq, Repr

/-- The 403 error dict raised by both failure branches of
`check_permissions`. -/
def forbidden403 : PyError :=
  .authError ⟨403, "You do not have permission to perform that action.", 403⟩

/-- `check_permissions` (auth.py lines 150-169): 403 when the payload has
no permissions entry, 403 when the required permission is not an element
of the permissions list, `True` otherwise. -/
def check_permissions (permission : String) (payload : Payload) :
    Except PyError Bool :=
  match payload.permissions with
  | none => .error forbidden403
  | some user_permissions =>
    if permission ∉ user_permissions then .error forbidden403
    else .ok true

/-- The external collaborators of one guarded request: the keys array the
JWKS fetch returns, the kid of the unverified header of a given token, and
the `jwt.decode` behaviour for a given token and RSA key. -/
structure World where
  jwksKeys : List JWKSKey
  headerKid : String → Option String
  decode : String → RSAKey → DecodeOutcome Payload

/-- The wrapper produced by `requires_auth(permission)` (auth.py lines
184-194): header extraction, then verification (which opens with the
network fetch of the JWKS document), then the permission check, raising
the first error. On success the decorated handler receives the payload.
The second component counts the network fetches the run performed:
`verify_decode_jwt` opens with `urlopen`, so any run that enters it
fetches exactly once, and a run that fails extraction fetches never. -/
def requires_auth_wrapper (permission : String)
    (authorizationHeader : Option String) (w : World) :
    Except PyError Payload × Nat :=
  match get_token_auth_header authorizationHeader with
  | .error err => (.error err, 0)
  | .ok token =>
    match verify_decode_jwt w.jwksKeys (w.headerKid token) (w.decode token) with
    | .error err => (.error err, 1)
    | .ok payload =>
      match check_permissions permission payload with
      | .error err => (.error err, 1)
      | .ok _ => (.ok payload, 1)

instance {α β : Type} [DecidableEq α] [DecidableEq β] : DecidableEq (Except α β)
  | .error a, .error b =>
    if h : a = b then .isTrue (congrArg Except.error h)
    else .isFalse (fun hc => h (Except.error.inj hc))
  | .error _, .ok _ => .isFalse (fun hc => Except.noConfusion hc)
  | .ok _, .error _ => .isFalse (fun hc => Except.noConfusion hc)
  | .ok a, .ok b =>
    if h : a = b then .isTrue (congrArg Except.ok h)
    else .isFalse (fun hc => h (Except.ok.inj hc))

/-! Lemmas about the key-selection loop. -/

/-- An entry whose kid is present but differs from the token kid leaves the
accumulator unchanged. -/
theorem selectStep_skip (key : JWKSKey) (tokenKid : String)
    (acc : Option RSAKey) (s : String) (hkid : key.kid = some s)
    (hne : s ≠ tokenKid) : selectStep key tokenKid acc = .ok acc := by
  simp [selectStep, hkid, hne]

/-- A complete entry whose kid equals the token kid overwrites the
accumulator with the dict built from its fields. -/
theorem selectStep_match (key : JWKSKey) (tokenKid : String)
    (acc : Option RSAKey) (kty use n e : String)
    (hkid : key.kid = some tokenKid) (hkty : key.kty = some kty)
    (huse : key.use = some use) (hn : key.n = some n)
    (he : key.e = some e) :
    selectStep key tokenKid acc = .ok (some ⟨kty, tokenKid, use, n, e⟩) := by
  simp [selectStep, hkid, hkty, huse, hn, he]

/-- When no entry of the list matches the token kid (and every kid field is
present), the loop returns the accumulator untouched. -/
theorem selectKey_no_match : ∀ (keys : List JWKSKey) (tokenKid : String)
    (acc : Option RSAKey),
    (∀ k ∈ keys, ∃ s, k.kid = some s ∧ s ≠ tokenKid) →
    selectKey keys tokenKid acc = .ok acc
  | [], _, _, _ => rfl
  | key :: rest, tokenKid, acc, h => by
    obtain ⟨s, hs, hne⟩ := h key (List.mem_cons_self key rest)
    simp only [selectKey]
    rw [selectStep_skip key tokenKid acc s hs hne]
    exact selectKey_no_match rest tokenKid acc
      (fun k hk => h k (List.mem_cons_of_mem _ hk))

/-- Processing a concatenation of key lists processes the first list and
continues into the second from the accumulator the first produced. -/
theorem selectKey_append : ∀ (xs ys : List JWKSKey) (tokenKid : String)
    (acc acc2 : Option RSAKey), selectKey xs tokenKid acc = .ok acc2 →
    selectKey (xs ++ ys) tokenKid acc = selectKey ys tokenKid acc2
  | [], _, _, _, _, h => by
    simp only [selectKey] at h
    cases h
    rfl
  | x :: rest, ys, tokenKid, acc, acc2, h => by
    simp only [selectKey] at h
    simp only [List.cons_append, selectKey]
    cases hstep : selectStep x tokenKid acc with
    | error err =>
      rw [hstep] at h
      simp at h
    | ok next =>
      rw [hstep] at h
      exact selectKey_append rest ys tokenKid next acc2 h

/-- An entry that is either non-matching or complete is processed without
raising. -/
theorem selectStep_ok (key : JWKSKey) (tokenKid : String)
    (acc : Option RSAKey)
    (h : ∃ s, key.kid = some s ∧ (s = tokenKid →
      key.kty ≠ none ∧ key.use ≠ none ∧ key.n ≠ none ∧ key.e ≠ none)) :
    ∃ next, selectStep key tokenKid acc = .ok next := by
  obtain ⟨s, hs, hcomp⟩ := h
  by_cases heq : s = tokenKid
  · obtain ⟨hty, huse, hn, he⟩ := hcomp heq
    obtain ⟨kty, hkty⟩ := Option.ne_none_iff_exists'.mp hty
    obtain ⟨use, huse'⟩ := Option.ne_none_iff_exists'.mp huse
    obtain ⟨n, hn'⟩ := Option.ne_none_iff_exists'.mp hn
    obtain ⟨e, he'⟩ := Option.ne_none_iff_exists'.mp he
    rw [heq] at hs
    exact ⟨some ⟨kty, tokenKid, use, n, e⟩,
      selectStep_match key tokenKid acc kty use n e hs hkty huse' hn' he'⟩
  · exact ⟨acc, selectStep_skip key tokenKid acc s hs heq⟩

/-- Over a list whose entries are each non-matching or complete, the loop
terminates normally with some accumulator. -/
theorem selectKey_ok : ∀ (keys : List JWKSKey) (tokenKid : String)
    (acc : Option RSAKey),
    (∀ k ∈ keys, ∃ s, k.kid = some s ∧ (s = tokenKid →
      k.kty ≠ none ∧ k.use ≠ none ∧ k.n ≠ none ∧ k.e ≠ none)) →
    ∃ acc2, selectKey keys tokenKid acc = .ok acc2
  | [], _, acc, _ => ⟨acc, rfl⟩
  | key :: rest, tokenKid, acc, h => by
    obtain ⟨next, hnext⟩ :=
      selectStep_ok key tokenKid acc (h key (List.mem_cons_self key rest))
    obtain ⟨acc2, hacc2⟩ := selectKey_ok rest tokenKid next
      (fun k hk => h k (List.mem_cons_of_mem _ hk))
    refine ⟨acc2, ?_⟩
    simp only [selectKey]
    rw [hnext]
    exact hacc2

/-! Claim theorems. -/

/-- C1: behaviour of `verify_decode_jwt` when the token kid matches no
entry of the fetched key set. The selection loop leaves `rsa_key` empty,
the `if rsa_key:` guard skips the decode block, and the function reaches
`return payload` with the local never assigned: the run ends in an untyped
`UnboundLocalError`, not in the typed 401 `AuthError` the claim states.
It still never decodes and never returns successfully. -/
theorem verify_decode_jwt_unknown_kid_unbound {P : Type}
    (jwksKeys : List JWKSKey) (tokenKid : String)
    (d : RSAKey → DecodeOutcome P)
    (h : ∀ k ∈ jwksKeys, ∃ s, k.kid = some s ∧ s ≠ tokenKid) :
    verify_decode_jwt jwksKeys (some tokenKid) d =
      .error (.unboundLocalError "payload") := by
  have hsel := selectKey_no_match jwksKeys tokenKid none h
  simp [verify_decode_jwt, hsel]

/-- Concrete run of the unknown-kid path: one well-formed key with a
different kid, token kid "abc". -/
theorem verify_decode_jwt_unknown_kid_unbound_witness :
    verify_decode_jwt
      [⟨some "other", some "RSA", some "sig", some "n0", some "AQAB"⟩]
      (some "abc") (fun _ => DecodeOutcome.ok (⟨some []⟩ : Payload)) =
      .error (.unboundLocalError "payload") :=
  verify_decode_jwt_unknown_kid_unbound _ _ _ (by
    intro k hk
    rw [List.mem_singleton] at hk
    subst hk
    exact ⟨"other", rfl, by decide⟩)

/-- C3 counterexample: a key-set entry missing its kid field is not
dropped; the comparison `key["kid"] == token_header["kid"]` raises an
untyped `KeyError`. -/
theorem verify_decode_jwt_partial_entry_cex :
    verify_decode_jwt
      [⟨none, some "RSA", some "sig", some "n0", some "AQAB"⟩]
      (some "abc") (fun _ => (.otherError : DecodeOutcome Payload)) =
      .error (.keyError "kid") := rfl

/-- C3 (amended): a partial entry is never dropped. An entry lacking the
kid field aborts the whole verification with `KeyError` for "kid", and a
matching entry lacking the kty field aborts with `KeyError` for "kty":
key selection can end in an untyped error on a partial entry. -/
theorem verify_decode_jwt_partial_entry_keyerror {P : Type}
    (key : JWKSKey) (rest : List JWKSKey) (tokenKid : String)
    (d : RSAKey → DecodeOutcome P) :
    (key.kid = none →
      verify_decode_jwt (key :: rest) (some tokenKid) d =
        .error (.keyError "kid")) ∧
    (key.kid = some tokenKid → key.kty = none →
      verify_decode_jwt (key :: rest) (some tokenKid) d =
        .error (.keyError "kty")) := by
  constructor
  · intro hkid
    simp [verify_decode_jwt, selectKey, selectStep, hkid]
  · intro hkid hkty
    simp [verify_decode_jwt, selectKey, selectStep, hkid, hkty]

/-- Concrete run of the partial-entry path: a matching entry that lacks
the kty field raises `KeyError` for "kty". -/
theorem verify_decode_jwt_partial_entry_keyerror_witness :
    verify_decode_jwt
      [⟨some "abc", none, some "sig", some "n0", some "AQAB"⟩]
      (some "abc") (fun _ => (.otherError : DecodeOutcome Payload)) =
      .error (.keyError "kty") :=
  (verify_decode_jwt_partial_entry_keyerror _ _ _ _).2 rfl rfl

/-- C4: `get_token_auth_header` fails, always with the 401 error dict,
exactly when the header is absent, or does not split on the space
character into exactly two parts, or its first part lowercased is not
"bearer"; in every other case it returns the second part verbatim. -/
theorem get_token_auth_header_spec (auth : Option String) :
    (get_token_auth_header auth = .error unauthorised401 ↔
      (auth = none ∨ ∃ h, auth = some h ∧
        ((pySplitSpace h).length ≠ 2 ∨
          pyLower ((pySplitSpace h).headD "") ≠ "bearer"))) ∧
    (∀ h scheme tok, auth = some h → pySplitSpace h = [scheme, tok] →
      pyLower scheme = "bearer" → get_token_auth_header auth = .ok tok) := by
  constructor
  · cases auth with
    | none => simp [get_token_auth_header]
    | some h =>
      simp only [get_token_auth_header]
      by_cases hlen : (pySplitSpace h).length ≠ 2
      · simp [hlen]
      · by_cases hlow : pyLower ((pySplitSpace h).headD "") ≠ "bearer"
        · simp [hlen, hlow]
        · simp [hlen, hlow]
  · intro h scheme tok hauth hsplit hlow
    subst hauth
    simp [get_token_auth_header, hsplit, hlow]

/-- Concrete extraction success: a well-formed bearer header yields the
token verbatim. -/
theorem get_token_auth_header_spec_witness :
    get_token_auth_header (some "Bearer abc123") = .ok "abc123" :=
  (get_token_auth_header_spec (some "Bearer abc123")).2
    "Bearer abc123" "Bearer" "abc123" rfl rfl rfl

/-- C6: a verified payload with no permissions entry makes
`check_permissions` fail with the 403 error dict (never 401) for every
required permission, in particular every non-empty one. -/
theorem check_permissions_no_permissions_claim (permission : String)
    (payload : Payload) (hne : permission ≠ "")
    (hnone : payload.permissions = none) :
    check_permissions permission payload =
      .error (.authError
        ⟨403, "You do not have permission to perform that action.", 403⟩) := by
  simp [check_permissions, hnone, forbidden403]

/-- Concrete run of the missing-permissions-claim path. -/
theorem check_permissions_no_permissions_claim_witness :
    check_permissions "post:drinks" ⟨none⟩ =
      .error (.authError
        ⟨403, "You do not have permission to perform that action.", 403⟩) :=
  check_permissions_no_permissions_claim "post:drinks" ⟨none⟩ (by decide) rfl

/-- C7: a request with no authorization header is rejected with the 401
error dict by header extraction, and the run performs zero network
fetches: the guard never reaches the JWKS fetch that opens
`verify_decode_jwt`. -/
theorem requires_auth_wrapper_missing_header_no_fetch
    (permission : String) (w : World) :
    requires_auth_wrapper permission none w =
      (.error unauthorised401, 0) := rfl

/-- C10: a header of the scheme followed by one space and nothing after it
is accepted by extraction, which returns the empty string as the token;
the guard then always proceeds into verification (one fetch is performed),
so rejection of such a request is deferred to the verification step. -/
theorem get_token_auth_header_trailing_space :
    get_token_auth_header (some "Bearer ") = .ok "" ∧
    ∀ (permission : String) (w : World),
      (requires_auth_wrapper permission (some "Bearer ") w).2 = 1 := by
  refine ⟨rfl, ?_⟩
  intro permission w
  simp only [requires_auth_wrapper,
    show get_token_auth_header (some "Bearer ") = .ok "" from rfl]
  cases hv : verify_decode_jwt w.jwksKeys (w.headerKid "") (w.decode "") with
  | error err => simp
  | ok payload =>
    cases hc : check_permissions permission payload with
    | error err => simp [hc]
    | ok b => simp [hc]

/-- C2 counterexample: a guard configured with the empty required
permission, against a request whose token verifies with permissions list
["get:drinks-detail"], does not succeed: `check_permissions` still runs
and rejects with 403 because the empty string is not an element of the
list. -/
theorem requires_auth_wrapper_empty_permission_cex :
    requires_auth_wrapper "" (some "Bearer tok")
      ⟨[⟨some "k1", some "RSA", some "sig", some "n1", some "AQAB"⟩],
        fun _ => some "k1",
        fun _ _ => .ok ⟨some ["get:drinks-detail"]⟩⟩ =
      (.error forbidden403, 1) := rfl

/-- C2 (amended): with an empty required-permission string the permission
check is not skipped: `check_permissions` runs and succeeds exactly when
the payload carries a permissions list having the empty string as an
element, and otherwise fails with the 403 error dict. -/
theorem check_permissions_empty_permission_runs (p : Payload) :
    (check_permissions "" p = .ok true ↔
      ∃ ps, p.permissions = some ps ∧ "" ∈ ps) ∧
    (check_permissions "" p = .ok true ∨
      check_permissions "" p = .error forbidden403) := by
  obtain ⟨perms⟩ := p
  cases perms with
  | none =>
    refine ⟨?_, Or.inr rfl⟩
    simp [check_permissions]
  | some ps =>
    by_cases hmem : "" ∈ ps
    · exact ⟨by simp [check_permissions, hmem],
        Or.inl (by simp [check_permissions, hmem])⟩
    · exact ⟨by simp [check_permissions, hmem],
        Or.inr (by simp [check_permissions, hmem])⟩

/-- Concrete run of the amended C2 statement: the check passes with an
empty required permission only when the list itself holds "". -/
theorem check_permissions_empty_permission_runs_witness :
    check_permissions "" ⟨some [""]⟩ = .ok true :=
  (check_permissions_empty_permission_runs ⟨some [""]⟩).1.mpr
    ⟨[""], rfl, by decide⟩

/-- C5: when key selection succeeds and the decode raises
`ExpiredSignatureError`, the guard rejects 401 with the description
"Unauthorised. The token expired."; every other decode failure maps to a
401 with the empty description, which differs from the expiry one. -/
theorem verify_decode_jwt_expired_description (jwksKeys : List JWKSKey)
    (tokenKid : String) (k : RSAKey) (d d2 : RSAKey → DecodeOutcome Payload)
    (hsel : selectKey jwksKeys tokenKid none = .ok (some k))
    (hexp : d k = .expiredSignature)
    (hother : d2 k = .claimsError ∨ d2 k = .jwtError ∨ d2 k = .otherError) :
    verify_decode_jwt jwksKeys (some tokenKid) d =
      .error (.authError ⟨401, "Unauthorised. The token expired.", 401⟩) ∧
    verify_decode_jwt jwksKeys (some tokenKid) d2 =
      .error (.authError ⟨401, "", 401⟩) ∧
    "Unauthorised. The token expired." ≠ "" := by
  refine ⟨?_, ?_, by decide⟩
  · simp [verify_decode_jwt, hsel, hexp, decodeDispatch]
  · rcases hother with h2 | h2 | h2 <;>
      simp [verify_decode_jwt, hsel, h2, decodeDispatch]

/-- Concrete run of the expiry path against a one-key set. -/
theorem verify_decode_jwt_expired_description_witness :
    verify_decode_jwt [⟨some "k1", some "RSA", some "sig", some "n1", some "AQAB"⟩]
      (some "k1") (fun _ => (.expiredSignature : DecodeOutcome Payload)) =
      .error (.authError ⟨401, "Unauthorised. The token expired.", 401⟩) :=
  (verify_decode_jwt_expired_description
    [⟨some "k1", some "RSA", some "sig", some "n1", some "AQAB"⟩]
    "k1" ⟨"RSA", "k1", "sig", "n1", "AQAB"⟩
    (fun _ => .expiredSignature) (fun _ => .jwtError)
    rfl rfl (Or.inr (Or.inl rfl))).1

/-- C8: a verified payload whose permissions list is exactly
["get:drinks-detail"] is rejected 403 by a guard requiring "post:drinks",
accepted by a guard requiring "get:drinks-detail" (the handler receiving
that payload, whose list contains the permission), and rejected 403 by a
case-variant of the permission: membership is exact and case-sensitive. -/
theorem requires_auth_wrapper_rbac (auth : Option String) (w : World)
    (tok : String) (p : Payload)
    (hx : get_token_auth_header auth = .ok tok)
    (hv : verify_decode_jwt w.jwksKeys (w.headerKid tok) (w.decode tok) =
      .ok p)
    (hp : p.permissions = some ["get:drinks-detail"]) :
    requires_auth_wrapper "post:drinks" auth w = (.error forbidden403, 1) ∧
    requires_auth_wrapper "get:drinks-detail" auth w = (.ok p, 1) ∧
    (∃ ps, p.permissions = some ps ∧ "get:drinks-detail" ∈ ps) ∧
    check_permissions "Get:drinks-detail" p = .error forbidden403 := by
  obtain ⟨perms⟩ := p
  simp only at hp
  subst hp
  refine ⟨?_, ?_, ⟨["get:drinks-detail"], rfl, by decide⟩, by decide⟩
  · simp only [requires_auth_wrapper, hx, hv]
    decide
  · simp only [requires_auth_wrapper, hx, hv]
    decide

/-- Concrete run of the RBAC paths with a one-key world. -/
theorem requires_auth_wrapper_rbac_witness :
    requires_auth_wrapper "get:drinks-detail" (some "Bearer tok")
      ⟨[⟨some "k1", some "RSA", some "sig", some "n1", some "AQAB"⟩],
        fun _ => some "k1",
        fun _ _ => .ok ⟨some ["get:drinks-detail"]⟩⟩ =
      (.ok ⟨some ["get:drinks-detail"]⟩, 1) :=
  (requires_auth_wrapper_rbac (some "Bearer tok")
    ⟨[⟨some "k1", some "RSA", some "sig", some "n1", some "AQAB"⟩],
      fun _ => some "k1",
      fun _ _ => .ok ⟨some ["get:drinks-detail"]⟩⟩
    "tok" ⟨some ["get:drinks-detail"]⟩ rfl rfl rfl).2.1

/-- C9: when the key set holds several entries matching the token kid, the
selection loop, having no break, overwrites earlier matches, and the key
handed to the decode call is the one built from the last matching entry. -/
theorem verify_decode_jwt_last_match (pre post : List JWKSKey)
    (k1 k2 : JWKSKey) (tokenKid kty use n e : String)
    (d : RSAKey → DecodeOutcome Payload)
    (hk1 : k1 ∈ pre) (hk1kid : k1.kid = some tokenKid)
    (hk2kid : k2.kid = some tokenKid) (hk2kty : k2.kty = some kty)
    (hk2use : k2.use = some use) (hk2n : k2.n = some n)
    (hk2e : k2.e = some e)
    (hpre : ∀ k ∈ pre, ∃ s, k.kid = some s ∧ (s = tokenKid →
      k.kty ≠ none ∧ k.use ≠ none ∧ k.n ≠ none ∧ k.e ≠ none))
    (hpost : ∀ k ∈ post, ∃ s, k.kid = some s ∧ s ≠ tokenKid) :
    verify_decode_jwt (pre ++ k2 :: post) (some tokenKid) d =
      decodeDispatch (d ⟨kty, tokenKid, use, n, e⟩) := by
  obtain ⟨acc2, hacc⟩ := selectKey_ok pre tokenKid none hpre
  have h1 : selectKey (pre ++ k2 :: post) tokenKid none =
      selectKey (k2 :: post) tokenKid acc2 :=
    selectKey_append pre (k2 :: post) tokenKid none acc2 hacc
  have h2 : selectKey (k2 :: post) tokenKid acc2 =
      .ok (some ⟨kty, tokenKid, use, n, e⟩) := by
    simp only [selectKey]
    rw [selectStep_match k2 tokenKid acc2 kty use n e
      hk2kid hk2kty hk2use hk2n hk2e]
    exact selectKey_no_match post tokenKid _ hpost
  simp [verify_decode_jwt, h1, h2]

/-- Concrete run with two entries sharing a kid: the second entry (modulus
"n2") supplies the key the decode call receives. -/
theorem verify_decode_jwt_last_match_witness :
    verify_decode_jwt
      ([⟨some "k", some "RSA", some "sig", some "n1", some "AQAB"⟩] ++
        ⟨some "k", some "RSA", some "sig", some "n2", some "AQAB"⟩ :: [])
      (some "k")
      (fun r => if r.n = "n2" then .ok (⟨some []⟩ : Payload)
        else .expiredSignature) =
      decodeDispatch ((fun (r : RSAKey) =>
        if r.n = "n2" then .ok (⟨some []⟩ : Payload)
        else .expiredSignature) ⟨"RSA", "k", "sig", "n2", "AQAB"⟩) :=
  verify_decode_jwt_last_match
    [⟨some "k", some "RSA", some "sig", some "n1", some "AQAB"⟩] []
    ⟨some "k", some "RSA", some "sig", some "n1", some "AQAB"⟩
    ⟨some "k", some "RSA", some "sig", some "n2", some "AQAB"⟩
    "k" "RSA" "sig" "n2" "AQAB" _
    (List.mem_singleton.mpr rfl) rfl rfl rfl rfl rfl rfl
    (by
      intro k hk
      rw [List.mem_singleton] at hk
      subst hk
      exact ⟨"k", rfl, fun _ => by simp⟩)
    (by intro k hk; exact absurd hk (List.not_mem_nil k))
